import Mathlib

/-!
# therubyracer: the host/engine binding of `v8.cpp`, `ext/v8/script.cc` and `ext/v8/uint32_t.h`

The binding is glue between a host runtime (Ruby) and an embedded JavaScript
engine (V8).  Everything that is not in the three source files (the engine, the
host C API and the helper classes of `rr.h`) enters the development either as a
field of `Env` or as a definition whose comment says what it stands for.
-/

namespace rr

/-! ## Host values -/

/-- Host values (`VALUE`).  Class and module objects are identified by their
qualified name, `data` is a host object that wraps an engine handle and is
identified by its address in the host heap.  Floating-point host numbers are
left out. -/
inductive VALUE where
  | Qnil
  | Qfalse
  | Qtrue
  | integer (n : Int)
  | string (s : String)
  | symbol (name : String)
  | const (path : List String)
  | data (addr : Nat)
deriving DecidableEq, Repr

/-- Host exceptions that the operations below can raise. -/
inductive HostError where
  | RangeError
  | TypeError
deriving DecidableEq, Repr

/-- What a call of a host-facing function comes to: it returns, it raises a
host exception, or it runs into undefined behaviour of the C++ code (a
dereferenced empty handle). -/
inductive Outcome (α : Type) where
  | ok (a : α)
  | raised (e : HostError)
  | undefined
deriving DecidableEq, Repr

/-- Host identifiers (`ID`), named by the interned string. -/
structure ID where
  name : String
deriving DecidableEq, Repr

/-! ## Engine values -/

/-- An engine handle: `none` is the empty handle. -/
abbrev Handle (α : Type) := Option α

/-- An engine string (`v8::String`), by its characters. -/
structure V8String where
  chars : String
deriving DecidableEq, Repr

/-- An engine value (`v8::Value`), by its identity in the engine. -/
structure V8Value where
  ref : Nat
deriving DecidableEq, Repr

/-- A compiled script (`v8::Script`), by its identity in the engine. -/
structure V8Script where
  ref : Nat
deriving DecidableEq, Repr

/-! ## The process-wide variables and the registration tables -/

/-- The process-wide variables written by `Init_v8`. -/
inductive Global where
  | ruby_call_symbol
  | ruby_respond_to_ID
  | ruby_proc_class
  | ruby_method_class
  | rb_mModule
  | rb_cV8
  | rb_cV8_JSObject
deriving DecidableEq, Repr

/-- The four cached identifiers and class references among the globals. -/
def Global.isCached : Global → Bool
  | .ruby_call_symbol => true
  | .ruby_respond_to_ID => true
  | .ruby_proc_class => true
  | .ruby_method_class => true
  | _ => false

/-- The values of the process-wide variables; `none` is a variable that no
statement has assigned yet. -/
structure Globals where
  ruby_call_symbol : Option VALUE
  ruby_respond_to_ID : Option ID
  ruby_proc_class : Option VALUE
  ruby_method_class : Option VALUE
  rb_mModule : Option VALUE
  rb_cV8 : Option VALUE
  rb_cV8_JSObject : Option VALUE
deriving DecidableEq, Repr

/-- The native functions that the source registers with the host. -/
inductive Impl where
  | v8_context_allocate
  | v8_context_eval
  | v8_context_inject
  | v8_cxt_allocate
  | v8_object_allocate
  | v8_object_hash_access
  | v8_object_hash_assignment
  | v8_object_call_something
  | v8_what_is_this
  | Script_New
  | Script_Run
deriving DecidableEq, Repr

/-- One row of the host method tables: the receiver, whether the method is a
singleton method of the receiver or an instance method of the class, its name,
the native function and the argument count given to the host. -/
structure MethodDef where
  owner : VALUE
  singleton : Bool
  name : String
  impl : Impl
  argc : Int
deriving DecidableEq, Repr

/-- The calls and writes a run leaves behind, oldest first. -/
inductive Event where
  | assign (g : Global)
  | define_module (m : VALUE)
  | define_class (c : VALUE) (super : VALUE)
  | define_alloc_func (c : VALUE) (f : Impl)
  | define_method (d : MethodDef)
  | num2uint (v : VALUE)
  | compile (source : V8String) (origin : V8Value)
  | run (script : V8Script)
deriving DecidableEq, Repr

/-- An event that writes one of the four cached identifiers. -/
def Event.writesCached : Event → Bool
  | .assign g => g.isCached
  | _ => false

/-- An event that registers a module, a class, an allocator or a method. -/
def Event.isRegistration : Event → Bool
  | .define_module _ => true
  | .define_class _ _ => true
  | .define_alloc_func _ _ => true
  | .define_method _ => true
  | _ => false

/-- The state the binding runs in: the engine state `isolate`, the host heap of
script wrappers (a wrapper at address `a` holds the handle `objects[a]`), the
process-wide variables, the host tables of modules and classes, allocators and
methods, and the log of calls and writes. -/
structure World (σ : Type) where
  isolate : σ
  objects : List (Handle V8Script)
  globals : Globals
  classes : List VALUE
  allocators : List (VALUE × Impl)
  methods : List MethodDef
  trace : List Event

/-- The parts of the program and of its surroundings that are not in the
source files, with the signatures the source uses them at: the two entry points
of the engine (`v8::Script::New`, `v8::Script::Run`, which report failure by an
empty handle), the conversion helpers of `rr.h` (`String(VALUE)`,
`Value(VALUE)`, `Convert(handle)`) and the host evaluator `rb_eval_string`.
Each is a function from its arguments to its result, as the source calls it:
the source tests no result and catches no exception of any of them. -/
structure Env (σ : Type) where
  compile : V8String → V8Value → σ → Handle V8Script × σ
  run : V8Script → σ → Handle V8Value × σ
  rrString : VALUE → V8String
  rrValue : VALUE → V8Value
  Convert : Handle V8Value → VALUE
  rb_eval_string : String → VALUE

/-! ## `ext/v8/uint32_t.h` -/

/-- The number of values of a `uint32_t`. -/
def UINT32_RANGE : Nat := 2 ^ 32

/-- Modelled from the spec: the host macro `RTEST` (host C API, not in the
source files), the test for a value that is not false-like: every host value
but `nil` and `false` passes it, the host integer `0` included. -/
def RTEST : VALUE → Bool
  | .Qnil => false
  | .Qfalse => false
  | _ => true

/-- Modelled from the spec: the host macro `UINT2NUM` (host C API, not in the
source files), which the comment in `uint32_t.h` describes as converting a
`uint32_t` into its corresponding `VALUE`: the host integer of that value. -/
def UINT2NUM (ui : Nat) : VALUE := .integer (ui : Int)

/-- Modelled from the spec: the host macro `NUM2UINT` (host C API, not in the
source files), which the spec calls a checked numeric narrowing conversion: a
host integer inside the unsigned 32-bit range converts to itself, a host
integer outside of it raises, and a value that is not a number raises. -/
def num2uint : VALUE → Outcome Nat
  | .integer n => if 0 ≤ n ∧ n < (UINT32_RANGE : Int) then .ok n.toNat else .raised .RangeError
  | _ => .raised .TypeError

/-- A call of `NUM2UINT`: the conversion, entered in the log. -/
def NUM2UINT {σ : Type} (v : VALUE) (w : World σ) : Outcome Nat × World σ :=
  (num2uint v, { w with trace := w.trace ++ [Event.num2uint v] })

/-- The class `Uint32_t`: like every `Equiv` it stores a host `VALUE`. -/
structure Uint32_t where
  value : VALUE
deriving DecidableEq, Repr

/-- The constructor `Uint32_t(VALUE val) : Equiv(val)`. -/
def Uint32_t.ofVALUE (val : VALUE) : Uint32_t := ⟨val⟩

/-- The constructor `Uint32_t(uint32_t ui) : Equiv(UINT2NUM(ui))`; the argument
is an unsigned 32-bit integer. -/
def Uint32_t.ofUInt32 (ui : Nat) : Uint32_t := ⟨UINT2NUM (ui % UINT32_RANGE)⟩

/-- The coercion `operator uint32_t()`:
`return RTEST(value) ? NUM2UINT(value) : 0;`. -/
def Uint32_t.toUInt32 {σ : Type} (x : Uint32_t) (w : World σ) : Outcome Nat × World σ :=
  if RTEST x.value then NUM2UINT x.value w else (.ok 0, w)

/-! ## `ext/v8/script.cc` -/

/-- The engine call `v8::Script::New(source, origin)`: the engine compiles the
source and the call is entered in the log. -/
def v8_Script_New {σ : Type} (env : Env σ) (source : V8String) (origin : V8Value)
    (w : World σ) : Handle V8Script × World σ :=
  let r := env.compile source origin w.isolate
  (r.1, { w with isolate := r.2, trace := w.trace ++ [Event.compile source origin] })

/-- The engine call `script->Run()`: the engine executes the compiled script
and the call is entered in the log. -/
def v8_Script_Run {σ : Type} (env : Env σ) (script : V8Script) (w : World σ) :
    Handle V8Value × World σ :=
  let r := env.run script w.isolate
  (r.1, { w with isolate := r.2, trace := w.trace ++ [Event.run script] })

/-- Modelled from the spec: the construction `Script(handle)` of `rr.h` and its
conversion to a host `VALUE` (not in the source files).  The spec calls a
wrapper a host-language object holding a reference to an engine-side handle:
a new host object that holds the handle is put on the heap and its address is
the host value. -/
def Script.ofHandle {σ : Type} (h : Handle V8Script) (w : World σ) : VALUE × World σ :=
  (.data w.objects.length, { w with objects := w.objects ++ [h] })

/-- Modelled from the spec: the construction `Script(self)` of `rr.h` followed
by `->` (not in the source files): the compiled script behind the handle that
the wrapper `self` holds.  There is none when `self` is no script wrapper or
holds the empty handle. -/
def Script.ofVALUE {σ : Type} (self : VALUE) (w : World σ) : Option V8Script :=
  match self with
  | .data a => (w.objects.get? a).join
  | _ => none

/-- The method `Script::New(VALUE klass, VALUE source, VALUE filename)`:
`return Script(v8::Script::New(String(source), Value(filename)));`. -/
def Script.New {σ : Type} (env : Env σ) (_klass source filename : VALUE) (w : World σ) :
    Outcome VALUE × World σ :=
  let c := v8_Script_New env (env.rrString source) (env.rrValue filename) w
  let s := Script.ofHandle c.1 c.2
  (.ok s.1, s.2)

/-- The method `Script::Run(VALUE self)`:
`return Convert(Script(self)->Run());`. -/
def Script.Run {σ : Type} (env : Env σ) (self : VALUE) (w : World σ) :
    Outcome VALUE × World σ :=
  match Script.ofVALUE self w with
  | none => (.undefined, w)
  | some script =>
    let r := v8_Script_Run env script w
    (.ok (env.Convert r.1), r.2)

/-! ## The host registration calls -/

/-- Modelled from the spec: the host call `rb_intern` (host C API, not in the
source files), which resolves a name to its identifier. -/
def rb_intern (name : String) : ID := ⟨name⟩

/-- Modelled from the spec: the host macro `ID2SYM` (host C API, not in the
source files), the symbol value of an identifier. -/
def ID2SYM (id : ID) : VALUE := .symbol id.name

/-- Modelled from the spec: the host class `Object`, the variable `rb_cObject`
of the host C API (not in the source files). -/
def rb_cObject : VALUE := .const ["Object"]

/-- The qualified name of a class or module object. -/
def VALUE.path : VALUE → List String
  | .const p => p
  | _ => []

/-- A write of a process-wide variable. -/
def World.assign {σ : Type} (w : World σ) (g : Global) (f : Globals → Globals) : World σ :=
  { w with globals := f w.globals, trace := w.trace ++ [Event.assign g] }

/-- Modelled from the spec: the host call `rb_define_module(name)` (host C
API, not in the source files), which registers a top-level module with the
host and returns it. -/
def rb_define_module {σ : Type} (name : String) (w : World σ) : VALUE × World σ :=
  let m := VALUE.const [name]
  (m, { w with classes := w.classes ++ [m], trace := w.trace ++ [Event.define_module m] })

/-- Modelled from the spec: the host call `rb_define_module_under(outer, name)`
(host C API, not in the source files), which registers a module inside `outer`
with the host and returns it. -/
def rb_define_module_under {σ : Type} (outer : VALUE) (name : String) (w : World σ) :
    VALUE × World σ :=
  let m := VALUE.const (outer.path ++ [name])
  (m, { w with classes := w.classes ++ [m], trace := w.trace ++ [Event.define_module m] })

/-- Modelled from the spec: the host call
`rb_define_class_under(outer, name, super)` (host C API, not in the source
files), which registers a type inside `outer` with the host and returns it. -/
def rb_define_class_under {σ : Type} (outer : VALUE) (name : String) (super : VALUE)
    (w : World σ) : VALUE × World σ :=
  let c := VALUE.const (outer.path ++ [name])
  (c, { w with classes := w.classes ++ [c], trace := w.trace ++ [Event.define_class c super] })

/-- Modelled from the spec: the host call `rb_define_alloc_func(klass, func)`
(host C API, not in the source files), which registers the allocator of a
type. -/
def rb_define_alloc_func {σ : Type} (klass : VALUE) (func : Impl) (w : World σ) : World σ :=
  { w with allocators := w.allocators ++ [(klass, func)],
           trace := w.trace ++ [Event.define_alloc_func klass func] }

/-- Modelled from the spec: the host call
`rb_define_method(klass, name, func, argc)` (host C API, not in the source
files), which enters an instance method of `klass` in the host method tables
under the given name and argument count. -/
def rb_define_method {σ : Type} (klass : VALUE) (name : String) (func : Impl) (argc : Int)
    (w : World σ) : World σ :=
  let d : MethodDef := ⟨klass, false, name, func, argc⟩
  { w with methods := w.methods ++ [d], trace := w.trace ++ [Event.define_method d] }

/-- Modelled from the spec: the host call
`rb_define_singleton_method(obj, name, func, argc)` (host C API, not in the
source files), which enters a singleton method of `obj` in the host method
tables under the given name and argument count. -/
def rb_define_singleton_method {σ : Type} (obj : VALUE) (name : String) (func : Impl)
    (argc : Int) (w : World σ) : World σ :=
  let d : MethodDef := ⟨obj, true, name, func, argc⟩
  { w with methods := w.methods ++ [d], trace := w.trace ++ [Event.define_method d] }

/-! ## `v8.cpp` -/

/-- The function `Init_v8()`, statement by statement. -/
def Init_v8 {σ : Type} (env : Env σ) (w : World σ) : World σ :=
  let w := w.assign .ruby_call_symbol
    (fun G => { G with ruby_call_symbol := some (ID2SYM (rb_intern "call")) })
  let w := w.assign .ruby_respond_to_ID
    (fun G => { G with ruby_respond_to_ID := some (rb_intern "respond_to?") })
  let w := w.assign .ruby_proc_class
    (fun G => { G with ruby_proc_class := some (env.rb_eval_string "::Proc") })
  let w := w.assign .ruby_method_class
    (fun G => { G with ruby_method_class := some (env.rb_eval_string "::Method") })
  let m := rb_define_module "V8" w
  let rb_mModule := m.1
  let w := m.2.assign .rb_mModule (fun G => { G with rb_mModule := some rb_mModule })
  -- context setup
  let c := rb_define_class_under rb_mModule "Context" rb_cObject w
  let rb_cV8 := c.1
  let w := c.2.assign .rb_cV8 (fun G => { G with rb_cV8 := some rb_cV8 })
  let w := rb_define_alloc_func rb_cV8 .v8_context_allocate w
  let w := rb_define_method rb_cV8 "eval" .v8_context_eval 1 w
  let w := rb_define_method rb_cV8 "[]=" .v8_context_inject 2 w
  -- native module setup
  let n := rb_define_module_under rb_mModule "N" w
  let rb_mNative := n.1
  let k := rb_define_class_under rb_mNative "Context" rb_cObject n.2
  let V8_N_Context := k.1
  let w := rb_define_alloc_func V8_N_Context .v8_cxt_allocate k.2
  -- js object setup
  let j := rb_define_class_under rb_mModule "JSObject" rb_cObject w
  let rb_cV8_JSObject := j.1
  let w := j.2.assign .rb_cV8_JSObject (fun G => { G with rb_cV8_JSObject := some rb_cV8_JSObject })
  let w := rb_define_alloc_func rb_cV8_JSObject .v8_object_allocate w
  let w := rb_define_method rb_cV8_JSObject "[]" .v8_object_hash_access 1 w
  let w := rb_define_method rb_cV8_JSObject "[]=" .v8_object_hash_assignment 2 w
  let w := rb_define_method rb_cV8_JSObject "call_something" .v8_object_call_something 1 w
  -- stand alone methods
  rb_define_singleton_method rb_mModule "what_is_this?" .v8_what_is_this 1 w

/-- Modelled from the spec: the helper `ClassBuilder(name)` of `rr.h` (not in
the source files), which registers a type of that name with the host. -/
def ClassBuilder {σ : Type} (name : String) (w : World σ) : VALUE × World σ :=
  let c := VALUE.const [name]
  (c, { w with classes := w.classes ++ [c], trace := w.trace ++ [Event.define_class c rb_cObject] })

/-- Modelled from the spec: `ClassBuilder::defineSingletonMethod(name, impl)` of
`rr.h` (not in the source files).  The host argument count is that of the
native function without its receiver; `params` is the number of parameters in
the signature of the native function. -/
def ClassBuilder.defineSingletonMethod {σ : Type} (name : String) (impl : Impl) (params : Nat)
    (b : VALUE × World σ) : VALUE × World σ :=
  (b.1, rb_define_singleton_method b.1 name impl ((params : Int) - 1) b.2)

/-- Modelled from the spec: `ClassBuilder::defineMethod(name, impl)` of `rr.h`
(not in the source files), with the argument count found as for
`defineSingletonMethod`. -/
def ClassBuilder.defineMethod {σ : Type} (name : String) (impl : Impl) (params : Nat)
    (b : VALUE × World σ) : VALUE × World σ :=
  (b.1, rb_define_method b.1 name impl ((params : Int) - 1) b.2)

/-- The function `Script::Init()`.  `New` is declared with the three parameters
`(klass, source, filename)` and `Run` with the one parameter `(self)`. -/
def Script.Init {σ : Type} (w : World σ) : World σ :=
  (ClassBuilder.defineMethod "Run" .Script_Run 1
    (ClassBuilder.defineSingletonMethod "New" .Script_New 3
      (ClassBuilder "Script" w))).2

/-! ## A concrete environment -/

/-- The state before anything has run: no wrapper on the heap, no variable
assigned, empty tables, empty log. -/
def World.boot {σ : Type} (isolate : σ) : World σ :=
  { isolate := isolate
    objects := []
    globals := ⟨none, none, none, none, none, none, none⟩
    classes := []
    allocators := []
    methods := []
    trace := [] }

/-- A small engine and small conversions.  The engine state counts the scripts
compiled so far; the source text `(` does not compile; a compiled script has
the number of its compilation as identity; the script with identity `0` throws
when run and every other script returns the value with its own identity and
leaves the engine state as it is. -/
def demo : Env Nat where
  compile := fun s _ n => (if s.chars = "(" then none else some ⟨n⟩, n + 1)
  run := fun c n => (if c.ref = 0 then none else some ⟨c.ref⟩, n)
  rrString := fun v => match v with
    | .string s => ⟨s⟩
    | _ => ⟨""⟩
  rrValue := fun v => match v with
    | .string s => ⟨s.length⟩
    | _ => ⟨0⟩
  Convert := fun h => match h with
    | some x => .integer x.ref
    | none => .Qnil
  rb_eval_string := fun code => .const [code]

/-- The concrete state right after `Script.New` has compiled the source text
`1 + 1` from the boot state of an engine that compiled `n` scripts before; the
wrapper is at address `0` and holds the script with identity `n`. -/
def compiled (n : Nat) : World Nat :=
  (Script.New demo (VALUE.const ["Script"]) (VALUE.string "1 + 1") (VALUE.string "a.js")
    (World.boot n)).2

/-- The step from `w` to `w1` writes no process-wide variable: the variables
keep their values and the log grows by events that write none of the four
cached identifiers. -/
def World.keepsGlobals {σ : Type} (w w1 : World σ) : Prop :=
  w1.globals = w.globals ∧
  ∃ es : List Event, w1.trace = w.trace ++ es ∧ ∀ e ∈ es, e.writesCached = false

/-! ## Theorems: `Uint32_t` -/

/-- C1: for every unsigned 32-bit integer `u` (zero included), the `Uint32_t`
built from `u` stores the host integer of `u`, and its coercion back to
`uint32_t` returns exactly `u`. -/
theorem Uint32_t_roundtrip {σ : Type} (u : Nat) (hu : u < UINT32_RANGE) (w : World σ) :
    (Uint32_t.ofUInt32 u).value = UINT2NUM u ∧
    ((Uint32_t.ofUInt32 u).toUInt32 w).1 = Outcome.ok u := by
  have hmod : u % UINT32_RANGE = u := Nat.mod_eq_of_lt hu
  have hlt : (u : Int) < (UINT32_RANGE : Int) := by exact_mod_cast hu
  have hnn : (0 : Int) ≤ (u : Int) := Int.ofNat_nonneg u
  refine ⟨by simp [Uint32_t.ofUInt32, hmod], ?_⟩
  simp [Uint32_t.ofUInt32, Uint32_t.toUInt32, hmod, UINT2NUM, RTEST, NUM2UINT, num2uint, hlt]

/-- Witness of C1 at both ends of the range, `0` and `2 ^ 32 - 1`. -/
theorem Uint32_t_roundtrip_witness :
    ((Uint32_t.ofUInt32 0).value = UINT2NUM 0 ∧
      ((Uint32_t.ofUInt32 0).toUInt32 (World.boot (0 : Nat))).1 = Outcome.ok 0) ∧
    ((Uint32_t.ofUInt32 4294967295).value = UINT2NUM 4294967295 ∧
      ((Uint32_t.ofUInt32 4294967295).toUInt32 (World.boot (0 : Nat))).1
        = Outcome.ok 4294967295) :=
  ⟨Uint32_t_roundtrip 0 (by decide) (World.boot 0),
   Uint32_t_roundtrip 4294967295 (by decide) (World.boot 0)⟩

/-- C2: for the two false-like host values, `nil` and `false`, the coercion of
a `Uint32_t` built from the value returns `0`, raises nothing and leaves the
state as it was: no call of `NUM2UINT` enters the log. -/
theorem Uint32_t_false_like_is_zero {σ : Type} (v : VALUE)
    (hv : v = VALUE.Qnil ∨ v = VALUE.Qfalse) (w : World σ) :
    (Uint32_t.ofVALUE v).toUInt32 w = (Outcome.ok 0, w) ∧
    ((Uint32_t.ofVALUE v).toUInt32 w).2.trace = w.trace := by
  rcases hv with h | h <;> subst h <;> simp [Uint32_t.ofVALUE, Uint32_t.toUInt32, RTEST]

/-- Witness of C2 at `nil`. -/
theorem Uint32_t_false_like_is_zero_witness :
    (Uint32_t.ofVALUE VALUE.Qnil).toUInt32 (World.boot (0 : Nat))
        = (Outcome.ok 0, World.boot (0 : Nat)) ∧
    ((Uint32_t.ofVALUE VALUE.Qnil).toUInt32 (World.boot (0 : Nat))).2.trace
        = (World.boot (0 : Nat)).trace :=
  Uint32_t_false_like_is_zero VALUE.Qnil (Or.inl rfl) (World.boot 0)

/-- C3: for every host value that is not false-like, the coercion calls
`NUM2UINT` once on that value and hands its outcome through: a host integer in
`[0, 2 ^ 32)` comes back as that integer, a host integer outside of that range
raises, and a value that is no number (a string, for one) raises. -/
theorem Uint32_t_checked_narrowing {σ : Type} (v : VALUE)
    (hv : v ≠ VALUE.Qnil ∧ v ≠ VALUE.Qfalse) (w : World σ) :
    (Uint32_t.ofVALUE v).toUInt32 w
        = (num2uint v, { w with trace := w.trace ++ [Event.num2uint v] }) ∧
    (∀ n : Int, v = VALUE.integer n → 0 ≤ n → n < 2 ^ 32 →
        ((Uint32_t.ofVALUE v).toUInt32 w).1 = Outcome.ok n.toNat) ∧
    (∀ n : Int, v = VALUE.integer n → (n < 0 ∨ 2 ^ 32 ≤ n) →
        ∃ e, ((Uint32_t.ofVALUE v).toUInt32 w).1 = Outcome.raised e) ∧
    ((∀ n : Int, v ≠ VALUE.integer n) →
        ∃ e, ((Uint32_t.ofVALUE v).toUInt32 w).1 = Outcome.raised e) := by
  have ht : RTEST v = true := by
    cases v <;> simp_all [RTEST]
  have hcall : (Uint32_t.ofVALUE v).toUInt32 w
      = (num2uint v, { w with trace := w.trace ++ [Event.num2uint v] }) := by
    simp [Uint32_t.ofVALUE, Uint32_t.toUInt32, ht, NUM2UINT]
  refine ⟨hcall, ?_, ?_, ?_⟩
  · intro n hn h0 h1
    subst hn
    have h1' : n < (UINT32_RANGE : Int) := by simpa [UINT32_RANGE] using h1
    simp [hcall, num2uint, h0, h1']
  · intro n hn hout
    subst hn
    have hno : ¬ (0 ≤ n ∧ n < (UINT32_RANGE : Int)) := by
      rintro ⟨h0, h1⟩
      have h1' : n < 2 ^ 32 := by simpa [UINT32_RANGE] using h1
      omega
    exact ⟨HostError.RangeError, by simp [hcall, num2uint, hno]⟩
  · intro hnot
    refine ⟨HostError.TypeError, ?_⟩
    cases v <;> simp_all [num2uint]

/-- Witness of C3 at the host string `5`. -/
theorem Uint32_t_checked_narrowing_witness :
    (Uint32_t.ofVALUE (VALUE.string "5")).toUInt32 (World.boot (0 : Nat))
        = (num2uint (VALUE.string "5"),
            { World.boot (0 : Nat) with
              trace := (World.boot (0 : Nat)).trace ++ [Event.num2uint (VALUE.string "5")] }) ∧
    (∀ n : Int, VALUE.string "5" = VALUE.integer n → 0 ≤ n → n < 2 ^ 32 →
        ((Uint32_t.ofVALUE (VALUE.string "5")).toUInt32 (World.boot (0 : Nat))).1
          = Outcome.ok n.toNat) ∧
    (∀ n : Int, VALUE.string "5" = VALUE.integer n → (n < 0 ∨ 2 ^ 32 ≤ n) →
        ∃ e, ((Uint32_t.ofVALUE (VALUE.string "5")).toUInt32 (World.boot (0 : Nat))).1
          = Outcome.raised e) ∧
    ((∀ n : Int, VALUE.string "5" ≠ VALUE.integer n) →
        ∃ e, ((Uint32_t.ofVALUE (VALUE.string "5")).toUInt32 (World.boot (0 : Nat))).1
          = Outcome.raised e) :=
  Uint32_t_checked_narrowing (VALUE.string "5") ⟨by decide, by decide⟩ (World.boot 0)

/-! ## Theorems: `Script` -/

/-- The script behind a wrapper is read from the host heap alone. -/
theorem Script.ofVALUE_of_objects {σ : Type} (self : VALUE) (w w1 : World σ)
    (h : w1.objects = w.objects) : Script.ofVALUE self w1 = Script.ofVALUE self w := by
  cases self <;> simp [Script.ofVALUE, h]

/-- A wrapper returned by `Script.New` after a successful compilation holds the
compiled script. -/
theorem Script.ofVALUE_New {σ : Type} (env : Env σ) (klass source filename : VALUE)
    (w : World σ) (script : V8Script)
    (h : (env.compile (env.rrString source) (env.rrValue filename) w.isolate).1 = some script) :
    Script.ofVALUE (VALUE.data w.objects.length) (Script.New env klass source filename w).2
      = some script := by
  simp [Script.New, Script.ofHandle, v8_Script_New, Script.ofVALUE, h]

/-- C7: for every pair of arguments, `Script.New` enters exactly one call in
the log, the engine compile call with the string conversion of the first
argument as source text and the value conversion of the second argument as
origin; it enters no execute call; and it returns a new wrapper that holds the
handle which that compile call returned. -/
theorem Script_New_forwards {σ : Type} (env : Env σ) (klass source filename : VALUE)
    (w : World σ) :
    (Script.New env klass source filename w).2.trace
        = w.trace ++ [Event.compile (env.rrString source) (env.rrValue filename)] ∧
    (∀ script, Event.run script ∉
        [Event.compile (env.rrString source) (env.rrValue filename)]) ∧
    (Script.New env klass source filename w).1 = Outcome.ok (VALUE.data w.objects.length) ∧
    (Script.New env klass source filename w).2.objects.get? w.objects.length
        = some (env.compile (env.rrString source) (env.rrValue filename) w.isolate).1 ∧
    (Script.New env klass source filename w).2.isolate
        = (env.compile (env.rrString source) (env.rrValue filename) w.isolate).2 := by
  refine ⟨?_, ?_, ?_, ?_, ?_⟩
  · simp [Script.New, Script.ofHandle, v8_Script_New]
  · intro script
    simp
  · simp [Script.New, Script.ofHandle, v8_Script_New]
  · simp [Script.New, Script.ofHandle, v8_Script_New]
  · simp [Script.New, Script.ofHandle, v8_Script_New]

/-- C6: for every wrapper that holds a compiled script whose execution leaves
the engine state unchanged, two calls of `Script.Run` in succession return the
same host value, and neither call changes the host heap of wrappers, the
script the wrapper holds, or the engine state. -/
theorem Script_Run_twice {σ : Type} (env : Env σ) (self : VALUE) (script : V8Script)
    (w : World σ) (hself : Script.ofVALUE self w = some script)
    (hpure : (env.run script w.isolate).2 = w.isolate) :
    (Script.Run env self (Script.Run env self w).2).1 = (Script.Run env self w).1 ∧
    (Script.Run env self w).1 = Outcome.ok (env.Convert (env.run script w.isolate).1) ∧
    (Script.Run env self w).2.objects = w.objects ∧
    Script.ofVALUE self (Script.Run env self w).2 = some script ∧
    (Script.Run env self w).2.isolate = w.isolate ∧
    (Script.Run env self (Script.Run env self w).2).2.objects = w.objects ∧
    Script.ofVALUE self (Script.Run env self (Script.Run env self w).2).2 = some script ∧
    (Script.Run env self (Script.Run env self w).2).2.isolate = w.isolate := by
  have h1 : Script.Run env self w
      = (Outcome.ok (env.Convert (env.run script w.isolate).1),
          { w with trace := w.trace ++ [Event.run script] }) := by
    simp [Script.Run, hself, v8_Script_Run, hpure]
  have hself1 : Script.ofVALUE self
      ({ w with trace := w.trace ++ [Event.run script] } : World σ) = some script := by
    cases self <;> simp_all [Script.ofVALUE]
  have h2 : Script.Run env self ({ w with trace := w.trace ++ [Event.run script] } : World σ)
      = (Outcome.ok (env.Convert (env.run script w.isolate).1),
          { w with trace := (w.trace ++ [Event.run script]) ++ [Event.run script] }) := by
    simp [Script.Run, hself1, v8_Script_Run, hpure]
  have hself2 : Script.ofVALUE self
      ({ w with trace := (w.trace ++ [Event.run script]) ++ [Event.run script] } : World σ)
        = some script := by
    exact (Script.ofVALUE_of_objects self w _ rfl).trans hself
  rw [h1]
  simp only [h2]
  refine ⟨trivial, trivial, trivial, hself1, trivial, trivial, hself2, trivial⟩

/-- Witness of C6: the script compiled as number `1` in the concrete
environment. -/
theorem Script_Run_twice_witness :
    Script.ofVALUE (VALUE.data 0) (compiled 1) = some ⟨1⟩ ∧
    (demo.run ⟨1⟩ (compiled 1).isolate).2 = (compiled 1).isolate ∧
    (Script.Run demo (VALUE.data 0) (Script.Run demo (VALUE.data 0) (compiled 1)).2).1
        = (Script.Run demo (VALUE.data 0) (compiled 1)).1 :=
  ⟨by decide, by decide,
   (Script_Run_twice demo (VALUE.data 0) ⟨1⟩ (compiled 1) (by decide) (by decide)).1⟩

/-! ## Theorems: registration -/

/-- C8, as the code has it: `Init_v8` adds exactly six rows to the host method
tables: `eval` (1 argument) and `[]=` (2) on `V8::Context`, `[]` (1), `[]=` (2)
and `call_something` (1) on `V8::JSObject`, and the singleton function
`what_is_this?` (1) on the module `V8`.  It registers nothing for `Script`:
the singleton method `New` (2 arguments) and the instance method `Run` (no
argument) are added by `Script.Init`, a routine of its own that `Init_v8` does
not call, and the tables hold the eight rows once both have run. -/
theorem Init_method_tables {σ : Type} (env : Env σ) (w : World σ) :
    (Init_v8 env w).methods = w.methods ++
      [⟨VALUE.const ["V8", "Context"], false, "eval", Impl.v8_context_eval, 1⟩,
       ⟨VALUE.const ["V8", "Context"], false, "[]=", Impl.v8_context_inject, 2⟩,
       ⟨VALUE.const ["V8", "JSObject"], false, "[]", Impl.v8_object_hash_access, 1⟩,
       ⟨VALUE.const ["V8", "JSObject"], false, "[]=", Impl.v8_object_hash_assignment, 2⟩,
       ⟨VALUE.const ["V8", "JSObject"], false, "call_something",
          Impl.v8_object_call_something, 1⟩,
       ⟨VALUE.const ["V8"], true, "what_is_this?", Impl.v8_what_is_this, 1⟩] ∧
    (Script.Init (Init_v8 env w)).methods = w.methods ++
      [⟨VALUE.const ["V8", "Context"], false, "eval", Impl.v8_context_eval, 1⟩,
       ⟨VALUE.const ["V8", "Context"], false, "[]=", Impl.v8_context_inject, 2⟩,
       ⟨VALUE.const ["V8", "JSObject"], false, "[]", Impl.v8_object_hash_access, 1⟩,
       ⟨VALUE.const ["V8", "JSObject"], false, "[]=", Impl.v8_object_hash_assignment, 2⟩,
       ⟨VALUE.const ["V8", "JSObject"], false, "call_something",
          Impl.v8_object_call_something, 1⟩,
       ⟨VALUE.const ["V8"], true, "what_is_this?", Impl.v8_what_is_this, 1⟩,
       ⟨VALUE.const ["Script"], true, "New", Impl.Script_New, 2⟩,
       ⟨VALUE.const ["Script"], false, "Run", Impl.Script_Run, 0⟩] := by
  constructor
  · simp [Init_v8, World.assign, rb_define_module, rb_define_module_under,
      rb_define_class_under, rb_define_alloc_func, rb_define_method,
      rb_define_singleton_method, VALUE.path]
  · simp [Script.Init, ClassBuilder, ClassBuilder.defineMethod,
      ClassBuilder.defineSingletonMethod, Init_v8, World.assign, rb_define_module,
      rb_define_module_under, rb_define_class_under, rb_define_alloc_func, rb_define_method,
      rb_define_singleton_method, VALUE.path]

/-- Counterexample to C8 as stated: after `Init_v8` has run from the boot state
the method tables hold six rows, and none of them is a method `New` or `Run`
or belongs to `Script`. -/
theorem Init_v8_registers_no_Script :
    (Init_v8 demo (World.boot 0)).methods.length = 6 ∧
    ¬ ∃ d ∈ (Init_v8 demo (World.boot 0)).methods,
        d.name = "New" ∨ d.name = "Run" ∨ d.owner = VALUE.const ["Script"] := by
  constructor
  · decide
  · decide

/-- The log of `Init_v8`: the events it adds, in the order of its statements. -/
theorem Init_v8_trace {σ : Type} (env : Env σ) (w : World σ) :
    (Init_v8 env w).trace = w.trace ++
      [Event.assign Global.ruby_call_symbol,
       Event.assign Global.ruby_respond_to_ID,
       Event.assign Global.ruby_proc_class,
       Event.assign Global.ruby_method_class,
       Event.define_module (VALUE.const ["V8"]),
       Event.assign Global.rb_mModule,
       Event.define_class (VALUE.const ["V8", "Context"]) rb_cObject,
       Event.assign Global.rb_cV8,
       Event.define_alloc_func (VALUE.const ["V8", "Context"]) Impl.v8_context_allocate,
       Event.define_method
         ⟨VALUE.const ["V8", "Context"], false, "eval", Impl.v8_context_eval, 1⟩,
       Event.define_method
         ⟨VALUE.const ["V8", "Context"], false, "[]=", Impl.v8_context_inject, 2⟩,
       Event.define_module (VALUE.const ["V8", "N"]),
       Event.define_class (VALUE.const ["V8", "N", "Context"]) rb_cObject,
       Event.define_alloc_func (VALUE.const ["V8", "N", "Context"]) Impl.v8_cxt_allocate,
       Event.define_class (VALUE.const ["V8", "JSObject"]) rb_cObject,
       Event.assign Global.rb_cV8_JSObject,
       Event.define_alloc_func (VALUE.const ["V8", "JSObject"]) Impl.v8_object_allocate,
       Event.define_method
         ⟨VALUE.const ["V8", "JSObject"], false, "[]", Impl.v8_object_hash_access, 1⟩,
       Event.define_method
         ⟨VALUE.const ["V8", "JSObject"], false, "[]=", Impl.v8_object_hash_assignment, 2⟩,
       Event.define_method
         ⟨VALUE.const ["V8", "JSObject"], false, "call_something",
           Impl.v8_object_call_something, 1⟩,
       Event.define_method
         ⟨VALUE.const ["V8"], true, "what_is_this?", Impl.v8_what_is_this, 1⟩] := by
  simp [Init_v8, World.assign, rb_define_module, rb_define_module_under,
    rb_define_class_under, rb_define_alloc_func, rb_define_method,
    rb_define_singleton_method, VALUE.path]

/-- The process-wide variables after `Init_v8`. -/
theorem Init_v8_globals {σ : Type} (env : Env σ) (w : World σ) :
    (Init_v8 env w).globals =
      { ruby_call_symbol := some (VALUE.symbol "call")
        ruby_respond_to_ID := some ⟨"respond_to?"⟩
        ruby_proc_class := some (env.rb_eval_string "::Proc")
        ruby_method_class := some (env.rb_eval_string "::Method")
        rb_mModule := some (VALUE.const ["V8"])
        rb_cV8 := some (VALUE.const ["V8", "Context"])
        rb_cV8_JSObject := some (VALUE.const ["V8", "JSObject"]) } := by
  simp [Init_v8, World.assign, rb_define_module, rb_define_module_under,
    rb_define_class_under, rb_define_alloc_func, rb_define_method,
    rb_define_singleton_method, VALUE.path, ID2SYM, rb_intern]

/-- C10: `Init_v8` starts with the four writes of the cached identifiers, in
the order call symbol, `respond_to?` identifier, `Proc` class, `Method` class;
every registration comes after them, each of the four is written exactly once,
and afterwards they hold the values computed at that point.  `Script.Init`,
`Script.New`, `Script.Run` and the coercion of a `Uint32_t` write no
process-wide variable, so they leave all of them as they were. -/
theorem Init_v8_cached_identifiers {σ : Type} (env : Env σ) (w : World σ) :
    (∃ rest : List Event,
        (Init_v8 env w).trace = w.trace ++
          [Event.assign Global.ruby_call_symbol, Event.assign Global.ruby_respond_to_ID,
           Event.assign Global.ruby_proc_class, Event.assign Global.ruby_method_class]
          ++ rest ∧
        (∀ e ∈ rest, e.writesCached = false) ∧
        (∃ e ∈ rest, e.isRegistration = true)) ∧
    (∀ g : Global, g.isCached = true →
        ((Init_v8 env w).trace.drop w.trace.length).count (Event.assign g) = 1) ∧
    ((Init_v8 env w).globals.ruby_call_symbol = some (VALUE.symbol "call") ∧
      (Init_v8 env w).globals.ruby_respond_to_ID = some ⟨"respond_to?"⟩ ∧
      (Init_v8 env w).globals.ruby_proc_class = some (env.rb_eval_string "::Proc") ∧
      (Init_v8 env w).globals.ruby_method_class = some (env.rb_eval_string "::Method")) ∧
    (∀ w1 : World σ, World.keepsGlobals w1 (Script.Init w1)) ∧
    (∀ (w1 : World σ) (klass source filename : VALUE),
        World.keepsGlobals w1 (Script.New env klass source filename w1).2) ∧
    (∀ (w1 : World σ) (self : VALUE), World.keepsGlobals w1 (Script.Run env self w1).2) ∧
    (∀ (w1 : World σ) (x : Uint32_t), World.keepsGlobals w1 (x.toUInt32 w1).2) := by
  refine ⟨⟨[Event.define_module (VALUE.const ["V8"]),
       Event.assign Global.rb_mModule,
       Event.define_class (VALUE.const ["V8", "Context"]) rb_cObject,
       Event.assign Global.rb_cV8,
       Event.define_alloc_func (VALUE.const ["V8", "Context"]) Impl.v8_context_allocate,
       Event.define_method
         ⟨VALUE.const ["V8", "Context"], false, "eval", Impl.v8_context_eval, 1⟩,
       Event.define_method
         ⟨VALUE.const ["V8", "Context"], false, "[]=", Impl.v8_context_inject, 2⟩,
       Event.define_module (VALUE.const ["V8", "N"]),
       Event.define_class (VALUE.const ["V8", "N", "Context"]) rb_cObject,
       Event.define_alloc_func (VALUE.const ["V8", "N", "Context"]) Impl.v8_cxt_allocate,
       Event.define_class (VALUE.const ["V8", "JSObject"]) rb_cObject,
       Event.assign Global.rb_cV8_JSObject,
       Event.define_alloc_func (VALUE.const ["V8", "JSObject"]) Impl.v8_object_allocate,
       Event.define_method
         ⟨VALUE.const ["V8", "JSObject"], false, "[]", Impl.v8_object_hash_access, 1⟩,
       Event.define_method
         ⟨VALUE.const ["V8", "JSObject"], false, "[]=", Impl.v8_object_hash_assignment, 2⟩,
       Event.define_method
         ⟨VALUE.const ["V8", "JSObject"], false, "call_something",
           Impl.v8_object_call_something, 1⟩,
       Event.define_method
         ⟨VALUE.const ["V8"], true, "what_is_this?", Impl.v8_what_is_this, 1⟩],
      ?_, ?_, ?_⟩, ?_, ?_, ?_, ?_, ?_, ?_⟩
  · rw [Init_v8_trace, List.append_assoc]
    rfl
  · decide
  · decide
  · intro g hg
    rw [Init_v8_trace, List.drop_left]
    clear hg
    cases g <;> decide
  · rw [Init_v8_globals]
    exact ⟨rfl, rfl, rfl, rfl⟩
  · intro w1
    refine ⟨rfl, [Event.define_class (VALUE.const ["Script"]) rb_cObject,
      Event.define_method ⟨VALUE.const ["Script"], true, "New", Impl.Script_New, 2⟩,
      Event.define_method ⟨VALUE.const ["Script"], false, "Run", Impl.Script_Run, 0⟩],
      ?_, by decide⟩
    simp [Script.Init, ClassBuilder, ClassBuilder.defineMethod,
      ClassBuilder.defineSingletonMethod, rb_define_method, rb_define_singleton_method]
  · intro w1 klass source filename
    exact ⟨rfl, [Event.compile (env.rrString source) (env.rrValue filename)], rfl,
      by intro e he; simp at he; subst he; rfl⟩
  · intro w1 self
    cases hs : Script.ofVALUE self w1 with
    | none => exact ⟨by simp [Script.Run, hs], [], by simp [Script.Run, hs], by simp⟩
    | some script =>
      exact ⟨by simp [Script.Run, hs, v8_Script_Run], [Event.run script],
        by simp [Script.Run, hs, v8_Script_Run], by intro e he; simp at he; subst he; rfl⟩
  · intro w1 x
    cases ht : RTEST x.value with
    | false => exact ⟨by simp [Uint32_t.toUInt32, ht], [], by simp [Uint32_t.toUInt32, ht],
        by simp⟩
    | true =>
      exact ⟨by simp [Uint32_t.toUInt32, ht, NUM2UINT], [Event.num2uint x.value],
        by simp [Uint32_t.toUInt32, ht, NUM2UINT], by intro e he; simp at he; subst he; rfl⟩

end rr
